import Mathlib

/-!
# rapidscan: a TCP connect port scanner

Shallow embedding of `src/portscanner.cpp` (and its comment-free twin
`src/main.cpp`, which has the same code line for line).

* System calls are not executed: every call of `is_port_open` is given a
  `SysBehaviour`, the values the kernel hands back to that call, and it
  produces the list of system calls it made (`SysCall`) next to its result.
* `main` is a function of the program name `argv[0]`, the remaining
  arguments `argv[1..]`, and a `World` that chooses the behaviour of the
  system calls of each probe.  It produces a `Run`: what was written to
  the two streams, how the process ended, which `argv` slots were read, the
  probes made and the values the loop variable took.
* C++ `int` values are mathematical integers; the theorems that need it
  show that the values stay inside the 32-bit range.
* `FD_SET(sockfd, &wait_set)` is defined for descriptors below `FD_SETSIZE`
  only, and the source tests `sockfd` for `< 0` alone.  A call of
  `is_port_open` that reaches `FD_SET` with a larger descriptor has undefined
  behaviour: it has no return value (`ret = none`), its trace ends before
  `select`, and the run of `main` ends there as `Exit.undefined`.
-/

namespace RapidScan

/-! ## System calls -/

/-- Value of `EINPROGRESS` in `<errno.h>` on Linux. -/
def EINPROGRESS : Int := 115

/-- Value of `FD_SETSIZE` in `<sys/select.h>` on Linux: the number of
descriptors an `fd_set` has room for. -/
def FD_SETSIZE : Int := 1024

/-- What the operating system answers to the system calls of one call of
`is_port_open`.  `so_error` is the content of the variable `so_error` after
`getsockopt` returned. -/
structure SysBehaviour where
  socket_ret : Int
  fcntl_getfl_ret : Int
  inet_pton_ret : Int
  connect_ret : Int
  connect_errno : Int
  select_ret : Int
  so_error : Int
deriving DecidableEq

/-- One system call made by the program, with its arguments and its answer.
For `select`, `writefds` lists the descriptors of the set it waits on. -/
inductive SysCall where
  | socket (ret : Int)
  | fcntl_getfl (fd : Int) (ret : Int)
  | fcntl_setfl_nonblock (fd : Int) (flags : Int)
  | inet_pton (ip : String) (ret : Int)
  | connect (fd : Int) (sin_port : Int) (ret : Int) (errno : Int)
  | select (nfds : Int) (writefds : List Int) (tv_sec : Int) (tv_usec : Int) (ret : Int)
  | getsockopt_so_error (fd : Int) (so_error : Int)
  | close (fd : Int)
deriving DecidableEq

/-- The conversion `htons(port)` of an `int` to the 16-bit port field: the
value is reduced modulo `2^16` (the byte order is a matter of representation
only). -/
def htons (port : Int) : Int := port % 65536

/-- Result of one probe: the returned boolean, or `none` when the call ran
into undefined behaviour and returns nothing, and the system calls made. -/
structure ProbeResult where
  ret : Option Bool
  trace : List SysCall
deriving DecidableEq

/-- `bool is_port_open(const string& ip, int port, int timeout_ms = 500)`.
The integer division and remainder of C++ truncate towards zero.  The source
guards `sockfd` against `< 0` only, so `FD_SET(sockfd, &wait_set)` is reached
with any descriptor; for `sockfd ≥ FD_SETSIZE` it writes outside `wait_set`. -/
def is_port_open (ip : String) (port : Int) (timeout_ms : Int) (b : SysBehaviour) :
    ProbeResult :=
  let sockfd := b.socket_ret
  if sockfd < 0 then
    { ret := some false, trace := [SysCall.socket sockfd] }
  else
    let flags := b.fcntl_getfl_ret
    let started : List SysCall :=
      [SysCall.socket sockfd,
       SysCall.fcntl_getfl sockfd flags,
       SysCall.fcntl_setfl_nonblock sockfd flags,
       SysCall.inet_pton ip b.inet_pton_ret,
       SysCall.connect sockfd (htons port) b.connect_ret b.connect_errno]
    if b.connect_ret < 0 ∧ b.connect_errno ≠ EINPROGRESS then
      { ret := some false, trace := started ++ [SysCall.close sockfd] }
    else if FD_SETSIZE ≤ sockfd then
      { ret := none, trace := started }
    else
      let tv_sec := Int.tdiv timeout_ms 1000
      let tv_usec := Int.tmod timeout_ms 1000 * 1000
      let wait_set : List Int := [sockfd]
      let waited :=
        started ++ [SysCall.select (sockfd + 1) wait_set tv_sec tv_usec b.select_ret]
      if b.select_ret ≤ 0 then
        { ret := some false, trace := waited ++ [SysCall.close sockfd] }
      else
        { ret := some (decide (b.so_error = 0)),
          trace := waited ++ [SysCall.getsockopt_so_error sockfd b.so_error,
                              SysCall.close sockfd] }

/-- The effect of a system call on the multiset of descriptors the process
holds: a successful `socket` adds its descriptor, `close` releases one. -/
def SysCall.apply (held : List Int) : SysCall → List Int
  | SysCall.socket ret => if ret < 0 then held else ret :: held
  | SysCall.close fd => held.erase fd
  | _ => held

/-- Descriptors held after a sequence of system calls. -/
def heldAfter (held : List Int) (trace : List SysCall) : List Int :=
  trace.foldl SysCall.apply held

/-- Number of `close` calls on descriptor `fd` in a trace. -/
def closeCount (fd : Int) (trace : List SysCall) : Nat :=
  trace.count (SysCall.close fd)

/-- Whether a system call is a `close`. -/
def SysCall.isClose : SysCall → Bool
  | SysCall.close _ => true
  | _ => false

/-! ## Parsing the port arguments -/

/-- The two exceptions `std::stoi` throws. -/
inductive StoiError where
  | invalid_argument
  | out_of_range
deriving DecidableEq

/-- Smallest value of a 32-bit `int`. -/
def INT_MIN : Int := -2147483648

/-- Largest value of a 32-bit `int`. -/
def INT_MAX : Int := 2147483647

/-- White space in the C locale: space, `\t`, `\n`, `\v`, `\f`, `\r`. -/
def isspace (c : Char) : Bool :=
  c.toNat = 32 || (9 ≤ c.toNat && c.toNat ≤ 13)

/-- Decimal digit characters. -/
def isdigit (c : Char) : Bool :=
  48 ≤ c.toNat && c.toNat ≤ 57

/-- Value of a run of decimal digits, most significant first. -/
def digitsValue (ds : List Char) : Nat :=
  ds.foldl (fun acc c => 10 * acc + (c.toNat - 48)) 0

/-- The optional sign in front of the digits: whether it is a minus, and what
follows it. -/
def readSign : List Char → Bool × List Char
  | '-' :: rest => (true, rest)
  | '+' :: rest => (false, rest)
  | body => (false, body)

/-- The C++ standard library function `std::stoi(str)` (base 10), as `main`
uses it: leading white space is skipped, an optional sign is read, then the
longest run of digits; what follows the digits is ignored.  Without a digit it
throws `invalid_argument`, and a value that does not fit an `int` throws
`out_of_range`. -/
def stoi (str : String) : Except StoiError Int :=
  let signed := readSign (str.toList.dropWhile isspace)
  let ds := signed.2.takeWhile isdigit
  if ds = [] then Except.error StoiError.invalid_argument
  else
    let v : Int := if signed.1 then -(digitsValue ds : Int) else (digitsValue ds : Int)
    if v < INT_MIN ∨ INT_MAX < v then Except.error StoiError.out_of_range
    else Except.ok v

/-! ## The command line program -/

/-- What `main` writes to the standard output, one entry per output statement
group of the source. -/
inductive Out where
  | usage (prog_name : String)
  | scanning (start_port : Int) (end_port : Int) (target_ip : String)
  | port_open (port : Int)
deriving DecidableEq

/-- Text written by `print_help(prog_name)`. -/
def print_help (prog_name : String) : String :=
  "Simple Port Scanner\n" ++
  "Usage:\n" ++
  "  " ++ prog_name ++ " <target_ip> <start_port> <end_port>\n" ++
  "Options:\n" ++
  "  -h, --help     Show this help message\n" ++
  "\nExample:\n" ++
  "  " ++ prog_name ++ " 192.168.1.1 20 100\n"

/-- The characters an output entry stands for. -/
def Out.text : Out → String
  | Out.usage prog_name => print_help prog_name
  | Out.scanning start_port end_port target_ip =>
      "\nScanning ports " ++ toString start_port ++ " to " ++ toString end_port ++
        " on " ++ target_ip ++ "...\n\n"
  | Out.port_open port => "[+] Port " ++ toString port ++ " is OPEN\n"

/-- The message `main` writes to the error stream for a bad range. -/
def invalidRangeMessage : String :=
  "Invalid port range. Ports must be between 1 and 65535 and start_port <= end_port.\n"

/-- How the process ends: `main` returns a code, an exception thrown by
`stoi` leaves `main` uncaught (the source has no handler), or a probe ran into
undefined behaviour. -/
inductive Exit where
  | returned (code : Int)
  | uncaught (e : StoiError)
  | undefined
deriving DecidableEq

/-- One call of `is_port_open` made by `main`. -/
structure ProbeCall where
  ip : String
  port : Int
  timeout_ms : Int
  result : ProbeResult
deriving DecidableEq

/-- The behaviour of the system calls during a run: for the `n`-th call of
`is_port_open` of the process (counted from 0), made with the given address
and port, the answers of the operating system. -/
abbrev World := Nat → String → Int → SysBehaviour

/-- What the sweep loop did. `counter` lists the successive values of the loop
variable `port`, the last one being the value that ended the loop; `undefined`
tells that the loop did not end but stopped in a probe with undefined
behaviour. -/
structure Sweep where
  calls : List ProbeCall
  stdout : List Out
  counter : List Int
  undefined : Bool

/-- The loop `for (int port = start_port; port <= end_port; ++port)` of `main`,
entered with the loop variable at `port` after `n` earlier probes.  The call
`is_port_open(target_ip, port)` takes the default timeout of 500 ms. -/
def sweep_loop (sys : World) (target_ip : String) (end_port : Int) (port : Int) (n : Nat) :
    Sweep :=
  if port ≤ end_port then
    let r := is_port_open target_ip port 500 (sys n target_ip port)
    let call : ProbeCall := { ip := target_ip, port := port, timeout_ms := 500, result := r }
    match r.ret with
    | none => { calls := [call], stdout := [], counter := [port], undefined := true }
    | some is_open =>
      let rest := sweep_loop sys target_ip end_port (port + 1) (n + 1)
      { calls := call :: rest.calls,
        stdout := if is_open then Out.port_open port :: rest.stdout else rest.stdout,
        counter := port :: rest.counter,
        undefined := rest.undefined }
  else
    { calls := [], stdout := [], counter := [port], undefined := false }
termination_by (end_port + 1 - port).toNat
decreasing_by omega

/-- A complete run of the program. `argv_reads` lists the indices of the
`argv` slots read, in order. -/
structure Run where
  stdout : List Out
  stderr : List String
  exit : Exit
  argv_reads : List Nat
  calls : List ProbeCall
  counter : List Int

/-- The branch of `main` that prints the usage text and returns 0; `reads`
are the `argv` slots the condition looked at before. -/
def helpRun (prog_name : String) (reads : List Nat) : Run :=
  { stdout := [Out.usage prog_name], stderr := [], exit := Exit.returned 0,
    argv_reads := reads ++ [0], calls := [], counter := [] }

/-- An exception thrown by `stoi` while `main` parses its arguments. -/
def thrownRun (e : StoiError) (reads : List Nat) : Run :=
  { stdout := [], stderr := [], exit := Exit.uncaught e,
    argv_reads := reads, calls := [], counter := [] }

/-- `int main(int argc, char* argv[])` with `argv[0] = prog_name` and
`argv[1..] = args`, so that `argc = args.length + 1`.  The operator `||`
evaluates its right operand only when the left one is false. -/
def main (prog_name : String) (args : List String) (sys : World) : Run :=
  match args with
  | [a1, a2, a3] =>
    if a1 = "-h" then helpRun prog_name [1]
    else if a1 = "--help" then helpRun prog_name [1, 1]
    else
      let target_ip := a1
      match stoi a2 with
      | Except.error e => thrownRun e [1, 1, 1, 2]
      | Except.ok start_port =>
        match stoi a3 with
        | Except.error e => thrownRun e [1, 1, 1, 2, 3]
        | Except.ok end_port =>
          if start_port < 1 ∨ end_port > 65535 ∨ start_port > end_port then
            { stdout := [], stderr := [invalidRangeMessage], exit := Exit.returned 1,
              argv_reads := [1, 1, 1, 2, 3], calls := [], counter := [] }
          else
            let sw := sweep_loop sys target_ip end_port start_port 0
            { stdout := Out.scanning start_port end_port target_ip :: sw.stdout,
              stderr := [],
              exit := if sw.undefined then Exit.undefined else Exit.returned 0,
              argv_reads := [1, 1, 1, 2, 3], calls := sw.calls, counter := sw.counter }
  | _ => helpRun prog_name []

/-- All system calls of a run, in order. -/
def Run.trace (r : Run) : List SysCall :=
  r.calls.flatMap (fun c => c.result.trace)

/-- The `i`-th probe of a sweep that starts at `port` after `n` earlier
probes. -/
def nthProbe (sys : World) (target_ip : String) (port : Int) (n : Nat) (i : Nat) : ProbeCall :=
  { ip := target_ip, port := port + i, timeout_ms := 500,
    result := is_port_open target_ip (port + i) 500 (sys (n + i) target_ip (port + i)) }

/-- The run of `main` that rejects the port range. -/
def rejectRun : Run :=
  { stdout := [], stderr := [invalidRangeMessage], exit := Exit.returned 1,
    argv_reads := [1, 1, 1, 2, 3], calls := [], counter := [] }

/-- The run of `main` that sweeps the validated range `start_port..end_port`. -/
def sweepRun (sys : World) (target_ip : String) (start_port end_port : Int) : Run :=
  { stdout := Out.scanning start_port end_port target_ip ::
      (sweep_loop sys target_ip end_port start_port 0).stdout,
    stderr := [],
    exit :=
      if (sweep_loop sys target_ip end_port start_port 0).undefined then Exit.undefined
      else Exit.returned 0,
    argv_reads := [1, 1, 1, 2, 3],
    calls := (sweep_loop sys target_ip end_port start_port 0).calls,
    counter := (sweep_loop sys target_ip end_port start_port 0).counter }

/-- A port every probe finds closed at once: `connect` fails with
`ECONNREFUSED` (111). -/
def refused : SysBehaviour :=
  { socket_ret := 3, fcntl_getfl_ret := 2, inet_pton_ret := 1, connect_ret := -1,
    connect_errno := 111, select_ret := 0, so_error := 0 }

/-- A listening port: the connection is in progress, `select` reports the
socket writable and no error is pending. -/
def listening : SysBehaviour :=
  { socket_ret := 3, fcntl_getfl_ret := 2, inet_pton_ret := 1, connect_ret := -1,
    connect_errno := 115, select_ret := 1, so_error := 0 }

/-- A listening port probed through a socket whose descriptor is the first
one that does not fit an `fd_set`. -/
def listeningHighFd : SysBehaviour :=
  { socket_ret := 1024, fcntl_getfl_ret := 2, inet_pton_ret := 1, connect_ret := -1,
    connect_errno := 115, select_ret := 1, so_error := 0 }

/-- A host on which only port 9000 listens. -/
def only9000 : World := fun _ _ port => if port = 9000 then listening else refused

/-! ## The probe -/

theorem is_port_open_ret_true_iff (ip : String) (port timeout_ms : Int) (b : SysBehaviour) :
    (is_port_open ip port timeout_ms b).ret = some true ↔
      0 ≤ b.socket_ret ∧ b.socket_ret < FD_SETSIZE ∧
        ¬ (b.connect_ret < 0 ∧ b.connect_errno ≠ EINPROGRESS) ∧
        0 < b.select_ret ∧ b.so_error = 0 := by
  unfold is_port_open
  simp only []
  split_ifs with h1 h2 h3 h4
  · simp only [Option.some.injEq, Bool.false_eq_true, false_iff]
    intro h
    omega
  · simp only [Option.some.injEq, Bool.false_eq_true, false_iff]
    intro h
    exact h.2.2.1 h2
  · simp only [reduceCtorEq, false_iff]
    intro h
    omega
  · simp only [Option.some.injEq, Bool.false_eq_true, false_iff]
    intro h
    omega
  · simp only [Option.some.injEq, decide_eq_true_eq]
    exact ⟨fun h5 => ⟨by omega, by omega, h2, by omega, h5⟩, fun h5 => h5.2.2.2.2⟩

theorem is_port_open_ret_none_iff (ip : String) (port timeout_ms : Int) (b : SysBehaviour) :
    (is_port_open ip port timeout_ms b).ret = none ↔
      FD_SETSIZE ≤ b.socket_ret ∧ ¬ (b.connect_ret < 0 ∧ b.connect_errno ≠ EINPROGRESS) := by
  unfold is_port_open
  simp only []
  split_ifs with h1 h2 h3 h4
  · simp only [reduceCtorEq, false_iff]
    intro h
    unfold FD_SETSIZE at h
    omega
  · simp only [reduceCtorEq, false_iff]
    intro h
    exact h.2 h2
  · simp only [true_iff]
    exact ⟨h3, h2⟩
  · simp only [reduceCtorEq, false_iff]
    intro h
    omega
  · simp only [reduceCtorEq, false_iff]
    intro h
    omega

theorem is_port_open_returns (ip : String) (port timeout_ms : Int) (b : SysBehaviour)
    (h : b.socket_ret < FD_SETSIZE) :
    ∃ r : Bool, (is_port_open ip port timeout_ms b).ret = some r := by
  cases hr : (is_port_open ip port timeout_ms b).ret with
  | none =>
    rw [is_port_open_ret_none_iff] at hr
    omega
  | some r => exact ⟨r, rfl⟩

/-- The contract of the probe for a descriptor that fits the `fd_set`: the
call returns, `true` exactly when all four steps succeeded. -/
theorem is_port_open_contract_below_fd_setsize (ip : String) (port timeout_ms : Int)
    (b : SysBehaviour) (hfd : b.socket_ret < FD_SETSIZE) :
    ((is_port_open ip port timeout_ms b).ret = some true ∨
      (is_port_open ip port timeout_ms b).ret = some false) ∧
    ((is_port_open ip port timeout_ms b).ret = some true ↔
      0 ≤ b.socket_ret ∧
      (0 ≤ b.connect_ret ∨ (b.connect_ret < 0 ∧ b.connect_errno = EINPROGRESS)) ∧
      0 < b.select_ret ∧
      b.so_error = 0) ∧
    ((is_port_open ip port timeout_ms b).ret = some false ↔
      b.socket_ret < 0 ∨
      (b.connect_ret < 0 ∧ b.connect_errno ≠ EINPROGRESS) ∨
      b.select_ret ≤ 0 ∨
      b.so_error ≠ 0) := by
  have ht := is_port_open_ret_true_iff ip port timeout_ms b
  obtain ⟨r, hr⟩ := is_port_open_returns ip port timeout_ms b hfd
  have hiff : (is_port_open ip port timeout_ms b).ret = some true ↔
      0 ≤ b.socket_ret ∧
      (0 ≤ b.connect_ret ∨ (b.connect_ret < 0 ∧ b.connect_errno = EINPROGRESS)) ∧
      0 < b.select_ret ∧ b.so_error = 0 := by
    rw [ht]
    constructor
    · rintro ⟨h1, _, h2, h3, h4⟩
      refine ⟨h1, ?_, h3, h4⟩
      by_cases hc : b.connect_ret < 0
      · exact Or.inr ⟨hc, by_contra (fun hn => h2 ⟨hc, hn⟩)⟩
      · exact Or.inl (by omega)
    · rintro ⟨h1, h2, h3, h4⟩
      refine ⟨h1, hfd, ?_, h3, h4⟩
      rintro ⟨hc, hn⟩
      rcases h2 with h2 | h2
      · omega
      · exact hn h2.2
  refine ⟨?_, hiff, ?_⟩
  · cases r with
    | true => exact Or.inl hr
    | false => exact Or.inr hr
  · have hf : (is_port_open ip port timeout_ms b).ret = some false ↔
        ¬ (is_port_open ip port timeout_ms b).ret = some true := by
      rw [hr]
      cases r <;> simp
    rw [hf, hiff]
    constructor
    · intro hn
      by_contra hc
      push_neg at hc
      refine hn ⟨by omega, ?_, by omega, hc.2.2.2⟩
      by_cases hcr : b.connect_ret < 0
      · exact Or.inr ⟨hcr, hc.2.1 hcr⟩
      · exact Or.inl (by omega)
    · rintro hc ⟨h1, h2, h3, h4⟩
      rcases hc with hc | hc | hc | hc
      · omega
      · rcases h2 with h2 | h2
        · omega
        · exact hc.2 h2.2
      · omega
      · exact hc h4

/-- A call that returns has closed its socket exactly once, if it had one. -/
theorem is_port_open_closes (ip : String) (port timeout_ms : Int) (b : SysBehaviour)
    (hret : (is_port_open ip port timeout_ms b).ret ≠ none) :
    (is_port_open ip port timeout_ms b).trace.filter SysCall.isClose =
      if b.socket_ret < 0 then [] else [SysCall.close b.socket_ret] := by
  unfold is_port_open at hret ⊢
  simp only [] at hret ⊢
  split_ifs at hret ⊢ with h1 h2 h3 h4 <;>
    first
      | exact absurd rfl hret
      | simp [SysCall.isClose, List.filter_cons]

/-- A call that returns leaves the held descriptors as they were. -/
theorem heldAfter_is_port_open (ip : String) (port timeout_ms : Int) (b : SysBehaviour)
    (held : List Int) (hret : (is_port_open ip port timeout_ms b).ret ≠ none) :
    heldAfter held (is_port_open ip port timeout_ms b).trace = held := by
  unfold is_port_open at hret
  unfold is_port_open heldAfter
  simp only [] at hret ⊢
  split_ifs at hret ⊢ with h1 h2 h3 h4 <;>
    first
      | exact absurd rfl hret
      | simp [SysCall.apply, h1]

theorem heldAfter_append (held : List Int) (t1 t2 : List SysCall) :
    heldAfter held (t1 ++ t2) = heldAfter (heldAfter held t1) t2 := by
  simp [heldAfter, List.foldl_append]

theorem nthProbe_zero (sys : World) (ip : String) (p : Int) (n : Nat) :
    nthProbe sys ip p n 0 =
      { ip := ip, port := p, timeout_ms := 500,
        result := is_port_open ip p 500 (sys n ip p) } := by
  simp [nthProbe]

theorem nthProbe_succ (sys : World) (ip : String) (p : Int) (n i : Nat) :
    nthProbe sys ip p n (i + 1) = nthProbe sys ip (p + 1) (n + 1) i := by
  have h1 : p + ((i + 1 : Nat) : Int) = p + 1 + (i : Int) := by push_cast; ring
  have h2 : n + (i + 1) = n + 1 + i := by omega
  simp only [nthProbe, h1, h2]

theorem map_nthProbe_succ (sys : World) (ip : String) (p : Int) (n j : Nat) :
    (List.range (j + 1)).map (nthProbe sys ip p n) =
      nthProbe sys ip p n 0 :: (List.range j).map (nthProbe sys ip (p + 1) (n + 1)) := by
  rw [List.range_succ_eq_map, List.map_cons, List.map_map]
  congr 1
  apply List.map_congr_left
  intro i _
  simp only [Function.comp, Nat.succ_eq_add_one, nthProbe_succ]

theorem map_port_succ (p : Int) (j : Nat) :
    (List.range (j + 1)).map (fun (i : Nat) => p + (i : Int)) =
      p :: (List.range j).map (fun (i : Nat) => p + 1 + (i : Int)) := by
  rw [List.range_succ_eq_map, List.map_cons, List.map_map]
  congr 1
  · simp
  · apply List.map_congr_left
    intro i _
    simp only [Function.comp, Nat.succ_eq_add_one]
    push_cast
    ring

theorem sweep_loop_done (sys : World) (ip : String) (e p : Int) (n : Nat) (h : ¬ p ≤ e) :
    sweep_loop sys ip e p n =
      { calls := [], stdout := [], counter := [p], undefined := false } := by
  rw [sweep_loop, if_neg h]

theorem sweep_loop_stop (sys : World) (ip : String) (e p : Int) (n : Nat) (h : p ≤ e)
    (hr : (is_port_open ip p 500 (sys n ip p)).ret = none) :
    sweep_loop sys ip e p n =
      { calls := [nthProbe sys ip p n 0], stdout := [], counter := [p], undefined := true } := by
  rw [sweep_loop, if_pos h, nthProbe_zero]
  simp only [hr]

theorem sweep_loop_step (sys : World) (ip : String) (e p : Int) (n : Nat) (h : p ≤ e)
    (r : Bool) (hr : (is_port_open ip p 500 (sys n ip p)).ret = some r) :
    sweep_loop sys ip e p n =
      { calls := nthProbe sys ip p n 0 :: (sweep_loop sys ip e (p + 1) (n + 1)).calls,
        stdout :=
          if r then Out.port_open p :: (sweep_loop sys ip e (p + 1) (n + 1)).stdout
          else (sweep_loop sys ip e (p + 1) (n + 1)).stdout,
        counter := p :: (sweep_loop sys ip e (p + 1) (n + 1)).counter,
        undefined := (sweep_loop sys ip e (p + 1) (n + 1)).undefined } := by
  rw [sweep_loop, if_pos h, nthProbe_zero]
  simp only [hr]

/-- When every call of `is_port_open` returns, the loop runs to its end. -/
theorem sweep_loop_full (sys : World) (ip : String) (e : Int)
    (hret : ∀ (n : Nat) (p : Int), (is_port_open ip p 500 (sys n ip p)).ret ≠ none) :
    ∀ (k : Nat) (p : Int) (n : Nat), (e + 1 - p).toNat = k →
      (sweep_loop sys ip e p n).calls = (List.range k).map (nthProbe sys ip p n) ∧
      (sweep_loop sys ip e p n).counter =
        (List.range (k + 1)).map (fun (i : Nat) => p + (i : Int)) ∧
      (sweep_loop sys ip e p n).undefined = false := by
  intro k
  induction k with
  | zero =>
    intro p n hk
    rw [sweep_loop_done sys ip e p n (by omega)]
    simp [List.range_succ]
  | succ k ih =>
    intro p n hk
    obtain ⟨r, hr⟩ := Option.ne_none_iff_exists'.1 (hret n p)
    obtain ⟨h1, h2, h3⟩ := ih (p + 1) (n + 1) (by omega)
    rw [sweep_loop_step sys ip e p n (by omega) r hr]
    simp only
    rw [h1, h2, h3, map_nthProbe_succ, map_port_succ p (k + 1)]
    exact ⟨rfl, rfl, rfl⟩

theorem main_wrong_count (prog : String) (args : List String) (sys : World)
    (h : args.length ≠ 3) : main prog args sys = helpRun prog [] := by
  unfold main
  split
  · simp at h
  · rfl

theorem main_help_flag (prog a1 a2 a3 : String) (sys : World)
    (h : a1 = "-h" ∨ a1 = "--help") :
    main prog [a1, a2, a3] sys = helpRun prog [1] ∨
      main prog [a1, a2, a3] sys = helpRun prog [1, 1] := by
  unfold main
  by_cases h1 : a1 = "-h"
  · left
    simp [h1]
  · right
    have h2 : a1 = "--help" := h.resolve_left h1
    simp [h2]

theorem main_parsed (prog ip a2 a3 : String) (sys : World) (s e : Int)
    (h1 : ip ≠ "-h") (h2 : ip ≠ "--help")
    (hs : stoi a2 = Except.ok s) (he : stoi a3 = Except.ok e) :
    main prog [ip, a2, a3] sys =
      if s < 1 ∨ e > 65535 ∨ s > e then rejectRun else sweepRun sys ip s e := by
  unfold main
  simp only [h1, h2, if_false, hs, he]
  rfl

theorem main_throws_first (prog ip a2 a3 : String) (sys : World) (x : StoiError)
    (h1 : ip ≠ "-h") (h2 : ip ≠ "--help") (hs : stoi a2 = Except.error x) :
    main prog [ip, a2, a3] sys = thrownRun x [1, 1, 1, 2] := by
  unfold main
  simp only [h1, h2, if_false, hs]

theorem main_throws_second (prog ip a2 a3 : String) (sys : World) (s : Int) (x : StoiError)
    (h1 : ip ≠ "-h") (h2 : ip ≠ "--help")
    (hs : stoi a2 = Except.ok s) (he : stoi a3 = Except.error x) :
    main prog [ip, a2, a3] sys = thrownRun x [1, 1, 1, 2, 3] := by
  unfold main
  simp only [h1, h2, if_false, hs, he]

/-- Every run of `main` is one of four: usage, an exception of `stoi`, the
rejection of the range, or the sweep of a validated range. -/
theorem main_cases (prog : String) (args : List String) (sys : World) :
    (∃ reads, main prog args sys = helpRun prog reads) ∨
    (∃ x reads, main prog args sys = thrownRun x reads) ∨
    main prog args sys = rejectRun ∨
    (∃ ip s e, 1 ≤ s ∧ s ≤ e ∧ e ≤ 65535 ∧ main prog args sys = sweepRun sys ip s e) := by
  by_cases hlen : args.length = 3
  · match args, hlen with
    | [ip, a2, a3], _ =>
      by_cases h1 : ip = "-h"
      · rcases main_help_flag prog ip a2 a3 sys (Or.inl h1) with h | h
        · exact Or.inl ⟨_, h⟩
        · exact Or.inl ⟨_, h⟩
      · by_cases h2 : ip = "--help"
        · rcases main_help_flag prog ip a2 a3 sys (Or.inr h2) with h | h
          · exact Or.inl ⟨_, h⟩
          · exact Or.inl ⟨_, h⟩
        · cases hs : stoi a2 with
          | error x => exact Or.inr (Or.inl ⟨x, _, main_throws_first prog ip a2 a3 sys x h1 h2 hs⟩)
          | ok s =>
            cases he : stoi a3 with
            | error x =>
              exact Or.inr (Or.inl ⟨x, _, main_throws_second prog ip a2 a3 sys s x h1 h2 hs he⟩)
            | ok e =>
              have hm := main_parsed prog ip a2 a3 sys s e h1 h2 hs he
              by_cases hv : s < 1 ∨ e > 65535 ∨ s > e
              · rw [if_pos hv] at hm
                exact Or.inr (Or.inr (Or.inl hm))
              · rw [if_neg hv] at hm
                exact Or.inr (Or.inr (Or.inr ⟨ip, s, e, by omega, by omega, by omega, hm⟩))
  · exact Or.inl ⟨_, main_wrong_count prog args sys hlen⟩

theorem heldAfter_calls (held : List Int) (calls : List (String × Int × Int × SysBehaviour))
    (hret : ∀ c ∈ calls, (is_port_open c.1 c.2.1 c.2.2.1 c.2.2.2).ret ≠ none) :
    heldAfter held
      (calls.flatMap (fun c => (is_port_open c.1 c.2.1 c.2.2.1 c.2.2.2).trace)) = held := by
  induction calls with
  | nil => rfl
  | cons c rest ih =>
    rw [List.flatMap_cons, heldAfter_append,
      heldAfter_is_port_open _ _ _ _ _ (hret c (List.mem_cons_self _ _))]
    exact ih (fun d hd => hret d (List.mem_cons_of_mem _ hd))

theorem heldAfter_sweep (sys : World) (ip : String) (p : Int) (held : List Int)
    (hret : ∀ (n : Nat) (q : Int), (is_port_open ip q 500 (sys n ip q)).ret ≠ none) :
    ∀ (k n : Nat),
      heldAfter held (((List.range k).map (nthProbe sys ip p n)).flatMap
        (fun c => c.result.trace)) = held := by
  intro k
  induction k with
  | zero => intro n; rfl
  | succ k ih =>
    intro n
    rw [List.range_succ, List.map_append, List.flatMap_append, heldAfter_append, ih n]
    simp only [List.map_cons, List.map_nil, List.flatMap_cons, List.flatMap_nil,
      List.append_nil, nthProbe]
    exact heldAfter_is_port_open _ _ _ _ _ (hret _ _)

/-- When every call of `is_port_open` returns, a run of `main` holds the same
descriptors at its end as at its start. -/
theorem heldAfter_main (prog : String) (args : List String) (sys : World) (held : List Int)
    (hret : ∀ (n : Nat) (ip : String) (q : Int),
      (is_port_open ip q 500 (sys n ip q)).ret ≠ none) :
    heldAfter held (main prog args sys).trace = held := by
  rcases main_cases prog args sys with ⟨r, h⟩ | ⟨x, r, h⟩ | h | ⟨ip, s, e, _, _, _, h⟩
  · rw [h]; rfl
  · rw [h]; rfl
  · rw [h]; rfl
  · rw [h]
    simp only [Run.trace, sweepRun]
    rw [(sweep_loop_full sys ip e (fun n q => hret n ip q) _ s 0 rfl).1]
    exact heldAfter_sweep sys ip s held (fun n q => hret n ip q) _ 0

theorem digitChar_digit (m : Nat) (h : m < 10) :
    isdigit (Nat.digitChar m) = true ∧ (Nat.digitChar m).toNat - 48 = m := by
  interval_cases m <;> decide

theorem digitsValue_snoc (L : List Char) (d : Char) :
    digitsValue (L ++ [d]) = 10 * digitsValue L + (d.toNat - 48) := by
  simp [digitsValue, List.foldl_append]

theorem toDigitsCore_spec : ∀ (fuel n : Nat) (ds : List Char), n < fuel →
    ∃ L : List Char, Nat.toDigitsCore 10 fuel n ds = L ++ ds ∧ L ≠ [] ∧
      (∀ c ∈ L, isdigit c = true) ∧ digitsValue L = n := by
  intro fuel
  induction fuel with
  | zero => intro n ds h; omega
  | succ fuel ih =>
    intro n ds h
    have hd := digitChar_digit (n % 10) (Nat.mod_lt n (by decide))
    unfold Nat.toDigitsCore
    by_cases h0 : n / 10 = 0
    · simp only [h0, if_true]
      refine ⟨[Nat.digitChar (n % 10)], rfl, by simp, ?_, ?_⟩
      · intro c hc
        simp only [List.mem_singleton] at hc
        rw [hc]; exact hd.1
      · have := digitsValue_snoc [] (Nat.digitChar (n % 10))
        simp only [List.nil_append] at this
        rw [this, hd.2]
        simp [digitsValue]
        omega
    · simp only [h0, if_false]
      obtain ⟨L, hL, hne, hall, hval⟩ := ih (n / 10) (Nat.digitChar (n % 10) :: ds) (by omega)
      refine ⟨L ++ [Nat.digitChar (n % 10)], by rw [hL]; simp, by simp, ?_, ?_⟩
      · intro c hc
        rcases List.mem_append.1 hc with hc | hc
        · exact hall c hc
        · simp only [List.mem_singleton] at hc
          rw [hc]; exact hd.1
      · rw [digitsValue_snoc, hval, hd.2]
        omega

theorem repr_digits (n : Nat) :
    ∃ L : List Char, (toString n).toList = L ∧ L ≠ [] ∧
      (∀ c ∈ L, isdigit c = true) ∧ digitsValue L = n := by
  obtain ⟨L, hL, hne, hall, hval⟩ := toDigitsCore_spec (n + 1) n [] (by omega)
  refine ⟨L, ?_, hne, hall, hval⟩
  show (Nat.repr n).toList = L
  simp only [Nat.repr, Nat.toDigits, hL, List.append_nil, List.asString]
  rfl

theorem isdigit_not_special (c : Char) (h : isdigit c = true) :
    isspace c = false ∧ c ≠ '-' ∧ c ≠ '+' := by
  simp only [isdigit, Bool.and_eq_true, decide_eq_true_eq] at h
  refine ⟨?_, ?_, ?_⟩
  · simp only [isspace, Bool.or_eq_false_iff, decide_eq_false_iff_not, Bool.and_eq_false_iff]
    omega
  · rintro rfl
    revert h
    decide
  · rintro rfl
    revert h
    decide

theorem stoi_digits (str : String) (L : List Char) (hstr : str.toList = L) (hne : L ≠ [])
    (hall : ∀ c ∈ L, isdigit c = true) (hr : (digitsValue L : Int) ≤ INT_MAX) :
    stoi str = Except.ok (digitsValue L : Int) := by
  obtain ⟨c, T, rfl⟩ := List.exists_cons_of_ne_nil hne
  have hc := isdigit_not_special c (hall c (List.mem_cons_self _ _))
  have htw : List.takeWhile isdigit (c :: T) = c :: T := by
    rw [List.takeWhile_eq_self_iff]
    exact hall
  unfold stoi
  simp only [hstr]
  rw [List.dropWhile_cons_of_neg (by simp [hc.1])]
  have hsign : readSign (c :: T) = (false, c :: T) := by
    unfold readSign
    split
    · rename_i heq
      simp only [List.cons.injEq] at heq
      exact absurd heq.1 hc.2.1
    · rename_i heq
      simp only [List.cons.injEq] at heq
      exact absurd heq.1 hc.2.2
    · rfl
  simp only [hsign, htw]
  have h0 : (0 : Int) ≤ (digitsValue (c :: T) : Int) := Int.ofNat_nonneg _
  rw [if_neg (by simp), if_neg]
  · simp
  · simp only [Bool.false_eq_true, if_false, INT_MIN, INT_MAX] at hr ⊢
    omega

theorem stoi_minus_digits (str : String) (L : List Char) (hstr : str.toList = '-' :: L)
    (hne : L ≠ []) (hall : ∀ c ∈ L, isdigit c = true)
    (hr : INT_MIN ≤ -(digitsValue L : Int)) :
    stoi str = Except.ok (-(digitsValue L : Int)) := by
  have htw : List.takeWhile isdigit L = L := by
    rw [List.takeWhile_eq_self_iff]
    exact hall
  unfold stoi
  simp only [hstr]
  rw [List.dropWhile_cons_of_neg (by decide)]
  simp only [readSign, htw]
  have h0 : (0 : Int) ≤ (digitsValue L : Int) := Int.ofNat_nonneg _
  rw [if_neg hne, if_neg]
  · simp
  · simp only [if_true, INT_MIN, INT_MAX] at hr ⊢
    omega

/-- The decimal text of an integer in the range of `int` is parsed back to it. -/
theorem stoi_toString (v : Int) (h1 : INT_MIN ≤ v) (h2 : v ≤ INT_MAX) :
    stoi (toString v) = Except.ok v := by
  cases v with
  | ofNat n =>
    obtain ⟨L, hL, hne, hall, hval⟩ := repr_digits n
    have hs : (toString (Int.ofNat n)).toList = L := hL
    have := stoi_digits _ L hs hne hall (by rw [hval]; exact h2)
    rw [this, hval]
    rfl
  | negSucc n =>
    obtain ⟨L, hL, hne, hall, hval⟩ := repr_digits (n + 1)
    have hs : (toString (Int.negSucc n)).toList = '-' :: L := by
      show ("-" ++ toString (n + 1)).toList = '-' :: L
      rw [← hL]
      rfl
    have := stoi_minus_digits _ L hs hne hall (by rw [hval]; exact h1)
    rw [this, hval]
    rfl

theorem stoi_in_int_range (str : String) (v : Int) (h : stoi str = Except.ok v) :
    INT_MIN ≤ v ∧ v ≤ INT_MAX := by
  unfold stoi at h
  simp only [] at h
  split_ifs at h with h1 h2 h3 h4
  all_goals
    simp only [Except.ok.injEq] at h
    rw [← h]
    omega

/-! ## The claims -/

/-- C1 fails on the code. With `socket()` returning the descriptor 1024, the
connection in progress, `select` positive and no pending error, all four
conditions of the claim hold, so the claim says the call returns `true`; the
code runs `FD_SET(1024, &wait_set)`, outside the `fd_set`, and has no defined
return value.  With the descriptor 1023 and the same answers it returns
`true`. -/
theorem is_port_open_high_descriptor_undefined :
    (0 ≤ listeningHighFd.socket_ret ∧
      (0 ≤ listeningHighFd.connect_ret ∨
        (listeningHighFd.connect_ret < 0 ∧ listeningHighFd.connect_errno = EINPROGRESS)) ∧
      0 < listeningHighFd.select_ret ∧
      listeningHighFd.so_error = 0) ∧
    FD_SETSIZE ≤ listeningHighFd.socket_ret ∧
    (is_port_open "127.0.0.1" 9000 500 listeningHighFd).ret = none ∧
    (is_port_open "127.0.0.1" 9000 500 listeningHighFd).ret ≠ some true ∧
    (is_port_open "127.0.0.1" 9000 500
      { socket_ret := 1023, fcntl_getfl_ret := 2, inet_pton_ret := 1, connect_ret := -1,
        connect_errno := 115, select_ret := 1, so_error := 0 }).ret = some true := by
  decide

/-- C5 (as the code has it). An invocation with a wrong number of arguments
(`argc ≠ 4`) prints the usage text on the standard output, writes nothing to
the error stream, returns exit code 0 and probes no port. -/
theorem main_wrong_argc_prints_usage (prog : String) (args : List String) (sys : World)
    (h : args.length + 1 ≠ 4) :
    (main prog args sys).stdout = [Out.usage prog] ∧
    (main prog args sys).stdout.map Out.text = [print_help prog] ∧
    (main prog args sys).stderr = [] ∧
    (main prog args sys).exit = Exit.returned 0 ∧
    (main prog args sys).calls = [] := by
  rw [main_wrong_count prog args sys (by omega)]
  simp [helpRun, Out.text]

/-- Instance of C5 for the invocation without arguments. -/
theorem main_wrong_argc_prints_usage_witness :
    (0 : Nat) + 1 ≠ 4 ∧
    (main "scan" [] only9000).stdout = [Out.usage "scan"] ∧
    (main "scan" [] only9000).stdout.map Out.text = [print_help "scan"] ∧
    (main "scan" [] only9000).stderr = [] ∧
    (main "scan" [] only9000).exit = Exit.returned 0 ∧
    (main "scan" [] only9000).calls = [] :=
  ⟨by decide, main_wrong_argc_prints_usage "scan" [] only9000 (by decide)⟩

/-- C5 fails as stated: run without arguments (`argc = 1`), `main` writes
nothing to the error stream and returns 0. -/
theorem main_wrong_argc_no_error :
    ¬ ((main "scan" [] only9000).stderr ≠ [] ∧
        (main "scan" [] only9000).exit ≠ Exit.returned 0) := by
  decide

/-- C6 fails on the code: the answer of `inet_pton` is discarded.  For the
address `localhost`, which `inet_pton` rejects (it returns 0), the connection
attempt is made all the same, and when it completes the result is `true`.  In
general the result is the same whatever `inet_pton` answered. -/
theorem is_port_open_unparseable_address_open :
    (is_port_open "localhost" 80 500
      { socket_ret := 3, fcntl_getfl_ret := 2, inet_pton_ret := 0, connect_ret := -1,
        connect_errno := EINPROGRESS, select_ret := 1, so_error := 0 }).ret = some true ∧
    (∀ (ip : String) (port timeout_ms : Int) (b : SysBehaviour) (r : Int),
      (is_port_open ip port timeout_ms { b with inet_pton_ret := r }).ret =
        (is_port_open ip port timeout_ms b).ret) := by
  refine ⟨by decide, ?_⟩
  intro ip port timeout_ms b r
  unfold is_port_open
  simp only []
  split_ifs <;> rfl

/-- C7 fails on the code. With `socket()` returning the valid descriptor 1024
and the connection in progress, the call runs `FD_SET(1024, &wait_set)`, outside
the `fd_set`: it has no defined exit path, and up to there it has not called
`close`, so the descriptor is still held.  A sweep of the single port 9000 in
such a run ends undefined with the descriptor held.  With the descriptor 1023
and the same answers `close` is called once, last, and nothing is held. -/
theorem is_port_open_high_descriptor_no_close :
    0 ≤ listeningHighFd.socket_ret ∧
    (is_port_open "127.0.0.1" 9000 500 listeningHighFd).ret = none ∧
    (is_port_open "127.0.0.1" 9000 500 listeningHighFd).trace.filter SysCall.isClose = [] ∧
    closeCount listeningHighFd.socket_ret
      (is_port_open "127.0.0.1" 9000 500 listeningHighFd).trace = 0 ∧
    heldAfter [] (is_port_open "127.0.0.1" 9000 500 listeningHighFd).trace = [1024] ∧
    (main "scan" ["127.0.0.1", "9000", "9000"] (fun _ _ _ => listeningHighFd)).exit =
      Exit.undefined ∧
    heldAfter []
      (main "scan" ["127.0.0.1", "9000", "9000"] (fun _ _ _ => listeningHighFd)).trace =
        [1024] ∧
    (is_port_open "127.0.0.1" 9000 500
      { socket_ret := 1023, fcntl_getfl_ret := 2, inet_pton_ret := 1, connect_ret := -1,
        connect_errno := 115, select_ret := 1, so_error := 0 }).trace.filter SysCall.isClose =
      [SysCall.close 1023] ∧
    heldAfter [] (is_port_open "127.0.0.1" 9000 500
      { socket_ret := 1023, fcntl_getfl_ret := 2, inet_pton_ret := 1, connect_ret := -1,
        connect_errno := 115, select_ret := 1, so_error := 0 }).trace = [] := by
  have e1 : stoi "9000" = Except.ok 9000 := rfl
  have hm : main "scan" ["127.0.0.1", "9000", "9000"] (fun _ _ _ => listeningHighFd) =
      { stdout := [Out.scanning 9000 9000 "127.0.0.1"], stderr := [], exit := Exit.undefined,
        argv_reads := [1, 1, 1, 2, 3],
        calls := [nthProbe (fun _ _ _ => listeningHighFd) "127.0.0.1" 9000 0 0],
        counter := [9000] } := by
    rw [main_parsed "scan" "127.0.0.1" "9000" "9000" _ 9000 9000 (by decide) (by decide) e1 e1,
      if_neg (by decide)]
    simp only [sweepRun]
    rw [sweep_loop_stop _ "127.0.0.1" 9000 9000 0 (by decide) (by decide)]
    rfl
  rw [hm]
  refine ⟨by decide, by decide, by decide, by decide, by decide, rfl, by decide, by decide,
    by decide⟩

/-- C8. When the first argument is `-h` or `--help`, whatever follows it,
`main` prints the usage text, returns 0 and probes no port; with `argc = 1` the
slot `argv[1]` is never read (only `argv[0]` is, for the usage text); and the
neighbouring invocation with the range 100..50 returns exit code 1. -/
theorem main_help_flag_prints_usage (prog a1 : String) (rest : List String) (sys : World)
    (h : a1 = "-h" ∨ a1 = "--help") :
    (main prog (a1 :: rest) sys).stdout = [Out.usage prog] ∧
    (main prog (a1 :: rest) sys).stdout.map Out.text = [print_help prog] ∧
    (main prog (a1 :: rest) sys).stderr = [] ∧
    (main prog (a1 :: rest) sys).exit = Exit.returned 0 ∧
    (main prog (a1 :: rest) sys).calls = [] ∧
    (main prog [] sys).argv_reads = [0] ∧
    1 ∉ (main prog [] sys).argv_reads ∧
    (main prog ["127.0.0.1", "100", "50"] sys).exit = Exit.returned 1 := by
  have hrun : ∃ reads, main prog (a1 :: rest) sys = helpRun prog reads := by
    by_cases hlen : (a1 :: rest).length = 3
    · match rest, hlen with
      | [a2, a3], _ =>
        rcases main_help_flag prog a1 a2 a3 sys h with h | h
        · exact ⟨_, h⟩
        · exact ⟨_, h⟩
    · exact ⟨_, main_wrong_count prog _ sys hlen⟩
  obtain ⟨reads, hr⟩ := hrun
  have h100 : stoi "100" = Except.ok 100 := rfl
  have h50 : stoi "50" = Except.ok 50 := rfl
  rw [hr, main_wrong_count prog [] sys (by decide),
    main_parsed prog "127.0.0.1" "100" "50" sys 100 50 (by decide) (by decide) h100 h50]
  simp [helpRun, Out.text, rejectRun]

/-- Instance of C8 for `scan --help x`. -/
theorem main_help_flag_prints_usage_witness :
    ("--help" = "-h" ∨ "--help" = "--help") ∧
    (main "scan" ["--help", "x"] only9000).stdout = [Out.usage "scan"] ∧
    (main "scan" ["--help", "x"] only9000).stdout.map Out.text = [print_help "scan"] ∧
    (main "scan" ["--help", "x"] only9000).stderr = [] ∧
    (main "scan" ["--help", "x"] only9000).exit = Exit.returned 0 ∧
    (main "scan" ["--help", "x"] only9000).calls = [] ∧
    (main "scan" [] only9000).argv_reads = [0] ∧
    1 ∉ (main "scan" [] only9000).argv_reads ∧
    (main "scan" ["127.0.0.1", "100", "50"] only9000).exit = Exit.returned 1 :=
  ⟨by decide, main_help_flag_prints_usage "scan" "--help" ["x"] only9000 (by decide)⟩

/-- C9. For a non-negative `timeout_ms` the `timeval` handed to `select` is
`tv_sec = timeout_ms / 1000`, `tv_usec = (timeout_ms % 1000) * 1000`; it
satisfies `tv_sec * 1000000 + tv_usec = timeout_ms * 1000` and
`0 ≤ tv_usec < 1000000`, and `select` is called with it whenever the socket was
created with a descriptor that fits the `fd_set` and `connect` did not fail at
once.  With the default of 500 ms, `tv_sec = 0` and `tv_usec = 500000`. -/
theorem select_deadline_exact (ip : String) (port timeout_ms : Int) (b : SysBehaviour)
    (ht : 0 ≤ timeout_ms) :
    (∀ nfds writefds tv_sec tv_usec ret,
      SysCall.select nfds writefds tv_sec tv_usec ret ∈
          (is_port_open ip port timeout_ms b).trace →
        tv_sec = timeout_ms / 1000 ∧ tv_usec = timeout_ms % 1000 * 1000 ∧
        tv_sec * 1000000 + tv_usec = timeout_ms * 1000 ∧ 0 ≤ tv_usec ∧ tv_usec < 1000000) ∧
    (0 ≤ b.socket_ret → b.socket_ret < FD_SETSIZE →
      ¬ (b.connect_ret < 0 ∧ b.connect_errno ≠ EINPROGRESS) →
      SysCall.select (b.socket_ret + 1) [b.socket_ret] (timeout_ms / 1000)
        (timeout_ms % 1000 * 1000) b.select_ret ∈ (is_port_open ip port timeout_ms b).trace) ∧
    (∀ nfds writefds tv_sec tv_usec ret,
      SysCall.select nfds writefds tv_sec tv_usec ret ∈ (is_port_open ip port 500 b).trace →
        tv_sec = 0 ∧ tv_usec = 500000) := by
  have hd : Int.tdiv timeout_ms 1000 = timeout_ms / 1000 :=
    Int.tdiv_eq_ediv ht (by decide)
  have hm : Int.tmod timeout_ms 1000 = timeout_ms % 1000 :=
    Int.tmod_eq_emod ht (by decide)
  refine ⟨?_, ?_, ?_⟩
  · intro nfds writefds tv_sec tv_usec ret hmem
    have hv : tv_sec = timeout_ms / 1000 ∧ tv_usec = timeout_ms % 1000 * 1000 := by
      unfold is_port_open at hmem
      simp only [hd, hm] at hmem
      split_ifs at hmem <;> simp at hmem
      · exact ⟨hmem.2.2.1, hmem.2.2.2.1⟩
      · exact ⟨hmem.2.2.1, hmem.2.2.2.1⟩
    obtain ⟨h1, h2⟩ := hv
    subst h1 h2
    refine ⟨rfl, rfl, ?_, ?_, ?_⟩ <;> omega
  · intro h1 hfd h2
    have hn : ¬ b.socket_ret < 0 := by omega
    have hn2 : ¬ FD_SETSIZE ≤ b.socket_ret := by omega
    unfold is_port_open
    simp only [hd, hm, if_neg hn, if_neg h2, if_neg hn2]
    split_ifs <;> simp
  · intro nfds writefds tv_sec tv_usec ret hmem
    unfold is_port_open at hmem
    have e1 : Int.tdiv 500 1000 = 0 := by decide
    have e2 : Int.tmod 500 1000 * 1000 = 500000 := by decide
    simp only [e1, e2] at hmem
    split_ifs at hmem <;> simp at hmem
    · exact ⟨hmem.2.2.1, hmem.2.2.2.1⟩
    · exact ⟨hmem.2.2.1, hmem.2.2.2.1⟩

/-- Instance of C9 for a timeout of 1500 ms. -/
theorem select_deadline_exact_witness :
    (0 : Int) ≤ 1500 ∧
    SysCall.select (listening.socket_ret + 1) [listening.socket_ret] (1500 / 1000)
      (1500 % 1000 * 1000) listening.select_ret ∈
        (is_port_open "127.0.0.1" 9000 1500 listening).trace :=
  ⟨by decide,
    (select_deadline_exact "127.0.0.1" 9000 1500 listening (by decide)).2.1
      (by decide) (by decide) (by decide)⟩

/-- C4 fails as stated: the integer 2147483648 as start port is outside
[1, 65535], yet `main` does not write the range message and return 1: `stoi`
throws `out_of_range`, which nothing catches. -/
theorem main_huge_port_not_rejected :
    toString (2147483648 : Int) = "2147483648" ∧
    (main "scan" ["127.0.0.1", "2147483648", "80"] only9000).exit =
      Exit.uncaught StoiError.out_of_range ∧
    ¬ (((main "scan" ["127.0.0.1", "2147483648", "80"] only9000).stderr =
          [invalidRangeMessage] ∧
        (main "scan" ["127.0.0.1", "2147483648", "80"] only9000).exit = Exit.returned 1 ∧
        (main "scan" ["127.0.0.1", "2147483648", "80"] only9000).calls = []) ↔
      ¬ ((1 : Int) ≤ 2147483648 ∧ (2147483648 : Int) ≤ 80 ∧ (80 : Int) ≤ 65535)) := by
  decide

/-- C4 (as the code has it). For every pair of integers `start`, `end` that
fit a 32-bit `int`, given in decimal as the port arguments of a three-argument,
non-help invocation, `main` writes the range message to the error stream,
returns 1 and probes nothing exactly when not `1 ≤ start ≤ end ≤ 65535`.  The
same holds for every spelling of the arguments that `stoi` reads as `start` and
`end` (which then fit an `int`): the range is rejected whenever a bound is
outside [1, 65535] or `start > end`, and a range with `start = end` inside
[1, 65535] is accepted and scans that one port (returning 0 when the probe
returns). -/
theorem main_rejects_invalid_range (prog ip a2 a3 : String) (sys : World) (s e : Int)
    (hh1 : ip ≠ "-h") (hh2 : ip ≠ "--help")
    (hs : stoi a2 = Except.ok s) (he : stoi a3 = Except.ok e) :
    (INT_MIN ≤ s ∧ s ≤ INT_MAX ∧ INT_MIN ≤ e ∧ e ≤ INT_MAX) ∧
    (((main prog [ip, a2, a3] sys).stderr = [invalidRangeMessage] ∧
        (main prog [ip, a2, a3] sys).exit = Exit.returned 1 ∧
        (main prog [ip, a2, a3] sys).calls = []) ↔
      ¬ (1 ≤ s ∧ s ≤ e ∧ e ≤ 65535)) ∧
    ((s < 1 ∨ 65535 < s ∨ e < 1 ∨ 65535 < e ∨ e < s) →
      (main prog [ip, a2, a3] sys).stdout = [] ∧
      (main prog [ip, a2, a3] sys).stderr = [invalidRangeMessage] ∧
      (main prog [ip, a2, a3] sys).exit = Exit.returned 1 ∧
      (main prog [ip, a2, a3] sys).calls = []) ∧
    (1 ≤ s → s ≤ 65535 → e = s →
      (main prog [ip, a2, a3] sys).stderr = [] ∧
      (main prog [ip, a2, a3] sys).exit ≠ Exit.returned 1 ∧
      ((is_port_open ip s 500 (sys 0 ip s)).ret ≠ none →
        (main prog [ip, a2, a3] sys).exit = Exit.returned 0) ∧
      (main prog [ip, a2, a3] sys).calls.map (fun c => c.port) = [s]) ∧
    (∀ v w : Int, INT_MIN ≤ v → v ≤ INT_MAX → INT_MIN ≤ w → w ≤ INT_MAX →
      (((main prog [ip, toString v, toString w] sys).stderr = [invalidRangeMessage] ∧
          (main prog [ip, toString v, toString w] sys).exit = Exit.returned 1 ∧
          (main prog [ip, toString v, toString w] sys).calls = []) ↔
        ¬ (1 ≤ v ∧ v ≤ w ∧ w ≤ 65535))) := by
  have key : ∀ (b2 b3 : String) (v w : Int), stoi b2 = Except.ok v → stoi b3 = Except.ok w →
      (((main prog [ip, b2, b3] sys).stderr = [invalidRangeMessage] ∧
          (main prog [ip, b2, b3] sys).exit = Exit.returned 1 ∧
          (main prog [ip, b2, b3] sys).calls = []) ↔
        ¬ (1 ≤ v ∧ v ≤ w ∧ w ≤ 65535)) := by
    intro b2 b3 v w hv2 hw3
    have hm := main_parsed prog ip b2 b3 sys v w hh1 hh2 hv2 hw3
    by_cases hv : v < 1 ∨ w > 65535 ∨ v > w
    · rw [hm, if_pos hv]
      simp only [rejectRun, true_and, true_iff]
      omega
    · rw [hm, if_neg hv]
      simp only [sweepRun]
      constructor
      · intro h
        exact absurd h.1 (by simp)
      · intro h
        omega
  have hm := main_parsed prog ip a2 a3 sys s e hh1 hh2 hs he
  have r1 := stoi_in_int_range a2 s hs
  have r2 := stoi_in_int_range a3 e he
  refine ⟨⟨r1.1, r1.2, r2.1, r2.2⟩, key a2 a3 s e hs he, ?_, ?_, ?_⟩
  · intro h
    have hv : s < 1 ∨ e > 65535 ∨ s > e := by omega
    rw [hm, if_pos hv]
    simp [rejectRun]
  · intro h1 h2 h3
    subst h3
    have hv : ¬ (e < 1 ∨ e > 65535 ∨ e > e) := by omega
    rw [hm, if_neg hv]
    simp only [sweepRun, true_and]
    cases hr : (is_port_open ip e 500 (sys 0 ip e)).ret with
    | none =>
      rw [sweep_loop_stop sys ip e e 0 (le_refl e) hr]
      simp [nthProbe]
    | some r =>
      rw [sweep_loop_step sys ip e e 0 (le_refl e) r hr,
        sweep_loop_done sys ip e (e + 1) 1 (by omega)]
      simp [nthProbe]
  · intro v w hv1 hv2 hw1 hw2
    exact key _ _ v w (stoi_toString v hv1 hv2) (stoi_toString w hw1 hw2)

/-- Instance of C4 for the range 100..50. -/
theorem main_rejects_invalid_range_witness :
    (main "scan" ["127.0.0.1", "100", "50"] only9000).stdout = [] ∧
    (main "scan" ["127.0.0.1", "100", "50"] only9000).stderr = [invalidRangeMessage] ∧
    (main "scan" ["127.0.0.1", "100", "50"] only9000).exit = Exit.returned 1 ∧
    (main "scan" ["127.0.0.1", "100", "50"] only9000).calls = [] :=
  (main_rejects_invalid_range "scan" "127.0.0.1" "100" "50" only9000 100 50
    (by decide) (by decide) rfl rfl).2.2.1 (by decide)

end RapidScan
